import Mathlib

/-!
Verification of the `smart-excerpt` repository (src/serve_readme.py), a small HTTP
server that renders the file README.md as a styled HTML page.

The Python handler `MarkdownHandler.do_GET` is embedded shallowly: the outcomes of its
external effects (the existence check on README.md, the read of the file, the call to
the external `markdown` library) are collected in an `Env` record and the handler body
is translated into a pure function from `Env` to the HTTP response it writes.  The two
long string constants of the source, `GITHUB_DARK_CSS` and `HTML_TEMPLATE`, are split
into sub-60-character literal pieces whose concatenation is the source text verbatim;
this keeps every kernel computation on them shallow.
-/

set_option maxRecDepth 8000

namespace ServeReadme

def HTML_TEMPLATE_seg1_p1 : String :=
  "<!DOCTYPE html>\n<html lang=\"en\">\n<head>\n  <meta char"

def HTML_TEMPLATE_seg1_p2 : String :=
  "set=\"UTF-8\">\n  <meta name=\"viewport\" content=\"width=dev"

def HTML_TEMPLATE_seg1_p3 : String :=
  "ice-width, initial-scale=1.0\">\n  <title>"

/-- First segment of `HTML_TEMPLATE` (serve_readme.py lines 165-170), the text before the
`\x7btitle\x7d` placeholder. Split into sub-60-character literals (their concatenation is the
source text verbatim) so that proofs over the page can proceed chunk by chunk. -/
def HTML_TEMPLATE_seg1 : String :=
  HTML_TEMPLATE_seg1_p1 ++ HTML_TEMPLATE_seg1_p2 ++ HTML_TEMPLATE_seg1_p3

/-- Segment of `HTML_TEMPLATE` between the `\x7btitle\x7d` and `\x7bcss\x7d` placeholders. -/
def HTML_TEMPLATE_seg2 : String :=
  "</title>\n  "

def GITHUB_DARK_CSS_p1 : String :=
  "\n<style>\nhtml, body \x7b\n  margin: 0;\n  padding: 0;\n  widt"

def GITHUB_DARK_CSS_p2 : String :=
  "h: 100%;\n  background-color: #0d1117;\n\x7d\n\nbody \x7b\n  min-h"

def GITHUB_DARK_CSS_p3 : String :=
  "eight: 100vh;\n\x7d\n\n.markdown-body \x7b\n  box-sizing: border-"

def GITHUB_DARK_CSS_p4 : String :=
  "box;\n  min-width: 200px;\n  max-width: 980px;\n  margin: "

def GITHUB_DARK_CSS_p5 : String :=
  "0 auto;\n  padding: 45px;\n  color: #c9d1d9;\n  background"

def GITHUB_DARK_CSS_p6 : String :=
  "-color: #0d1117;\n  font-family: -apple-system,BlinkMacS"

def GITHUB_DARK_CSS_p7 : String :=
  "ystemFont,\"Segoe UI\",Helvetica,Arial,sans-serif,\"Apple "

def GITHUB_DARK_CSS_p8 : String :=
  "Color Emoji\",\"Segoe UI Emoji\";\n  font-size: 16px;\n  lin"

def GITHUB_DARK_CSS_p9 : String :=
  "e-height: 1.5;\n  word-wrap: break-word;\n\x7d\n\n.markdown-bo"

def GITHUB_DARK_CSS_p10 : String :=
  "dy h1, .markdown-body h2, .markdown-body h3, .markdown-"

def GITHUB_DARK_CSS_p11 : String :=
  "body h4, .markdown-body h5, .markdown-body h6 \x7b\n  margi"

def GITHUB_DARK_CSS_p12 : String :=
  "n-top: 24px;\n  margin-bottom: 16px;\n  font-weight: 600;"

def GITHUB_DARK_CSS_p13 : String :=
  "\n  line-height: 1.25;\n  color: #f0f6fc;\n\x7d\n\n.markdown-bo"

def GITHUB_DARK_CSS_p14 : String :=
  "dy h1 \x7b\n  font-size: 2em;\n  border-bottom: 1px solid #2"

def GITHUB_DARK_CSS_p15 : String :=
  "1262d;\n  padding-bottom: .3em;\n\x7d\n\n.markdown-body h2 \x7b\n "

def GITHUB_DARK_CSS_p16 : String :=
  " font-size: 1.5em;\n  border-bottom: 1px solid #21262d;\n"

def GITHUB_DARK_CSS_p17 : String :=
  "  padding-bottom: .3em;\n\x7d\n\n.markdown-body code \x7b\n  padd"

def GITHUB_DARK_CSS_p18 : String :=
  "ing: .2em .4em;\n  margin: 0;\n  font-size: 85%;\n  backgr"

def GITHUB_DARK_CSS_p19 : String :=
  "ound-color: rgba(110,118,129,0.4);\n  border-radius: 6px"

def GITHUB_DARK_CSS_p20 : String :=
  ";\n  color: #c9d1d9;\n  font-family: ui-monospace,SFMono-"

def GITHUB_DARK_CSS_p21 : String :=
  "Regular,SF Mono,Menlo,Consolas,Liberation Mono,monospac"

def GITHUB_DARK_CSS_p22 : String :=
  "e;\n\x7d\n\n.markdown-body pre \x7b\n  padding: 16px;\n  overflow:"

def GITHUB_DARK_CSS_p23 : String :=
  " auto;\n  font-size: 85%;\n  line-height: 1.45;\n  backgro"

def GITHUB_DARK_CSS_p24 : String :=
  "und-color: #161b22;\n  border-radius: 6px;\n  color: #c9d"

def GITHUB_DARK_CSS_p25 : String :=
  "1d9;\n\x7d\n\n.markdown-body pre code \x7b\n  display: inline;\n  "

def GITHUB_DARK_CSS_p26 : String :=
  "max-width: auto;\n  padding: 0;\n  margin: 0;\n  overflow:"

def GITHUB_DARK_CSS_p27 : String :=
  " visible;\n  line-height: inherit;\n  word-wrap: normal;\n"

def GITHUB_DARK_CSS_p28 : String :=
  "  background-color: transparent;\n  border: 0;\n\x7d\n\n.markd"

def GITHUB_DARK_CSS_p29 : String :=
  "own-body table \x7b\n  border-spacing: 0;\n  border-collap"

def GITHUB_DARK_CSS_p30 : String :=
  "se: collapse;\n  display: block;\n  width: max-content;\n "

def GITHUB_DARK_CSS_p31 : String :=
  " max-width: 100%;\n  overflow: auto;\n\x7d\n\n.markdown-body t"

def GITHUB_DARK_CSS_p32 : String :=
  "able th, .markdown-body table td \x7b\n  padding: 6px 13px;"

def GITHUB_DARK_CSS_p33 : String :=
  "\n  border: 1px solid #30363d;\n\x7d\n\n.markdown-body table t"

def GITHUB_DARK_CSS_p34 : String :=
  "h \x7b\n  font-weight: 600;\n  background-color: #161b22;\n\x7d\n"

def GITHUB_DARK_CSS_p35 : String :=
  "\n.markdown-body table tr \x7b\n  background-color: #0d1117;"

def GITHUB_DARK_CSS_p36 : String :=
  "\n  border-top: 1px solid #21262d;\n\x7d\n\n.markdown-body tab"

def GITHUB_DARK_CSS_p37 : String :=
  "le tr:nth-child(2n) \x7b\n  background-color: #161b22;\n\x7d\n\n."

def GITHUB_DARK_CSS_p38 : String :=
  "markdown-body a \x7b\n  color: #58a6ff;\n  text-decoration: "

def GITHUB_DARK_CSS_p39 : String :=
  "none;\n\x7d\n\n.markdown-body a:hover \x7b\n  text-decoration: un"

def GITHUB_DARK_CSS_p40 : String :=
  "derline;\n\x7d\n\n.markdown-body blockquote \x7b\n  padding: 0 1e"

def GITHUB_DARK_CSS_p41 : String :=
  "m;\n  color: #8b949e;\n  border-left: .25em solid #30363d"

def GITHUB_DARK_CSS_p42 : String :=
  ";\n  margin: 0;\n\x7d\n\n.markdown-body ul, .markdown-body ol "

def GITHUB_DARK_CSS_p43 : String :=
  "\x7b\n  padding-left: 2em;\n\x7d\n\n.markdown-body li \x7b\n  margin:"

def GITHUB_DARK_CSS_p44 : String :=
  " .25em 0;\n\x7d\n\n.markdown-body hr \x7b\n  height: .25em;\n  pad"

def GITHUB_DARK_CSS_p45 : String :=
  "ding: 0;\n  margin: 24px 0;\n  background-color: #21262d;"

def GITHUB_DARK_CSS_p46 : String :=
  "\n  border: 0;\n\x7d\n\n.markdown-body strong \x7b\n  font-weight:"

def GITHUB_DARK_CSS_p47 : String :=
  " 600;\n  color: #f0f6fc;\n\x7d\n\n.markdown-body em \x7b\n  font-"

def GITHUB_DARK_CSS_p48 : String :=
  "style: italic;\n  color: #c9d1d9;\n\x7d\n</style>\n"

/-- The `GITHUB_DARK_CSS` stylesheet constant (serve_readme.py lines 14-163), split into
sub-60-character literals whose concatenation is the source text verbatim. -/
def GITHUB_DARK_CSS : String :=
  GITHUB_DARK_CSS_p1 ++ GITHUB_DARK_CSS_p2 ++ GITHUB_DARK_CSS_p3 ++ GITHUB_DARK_CSS_p4 ++ GITHUB_DARK_CSS_p5 ++ GITHUB_DARK_CSS_p6 ++ GITHUB_DARK_CSS_p7 ++ GITHUB_DARK_CSS_p8 ++ GITHUB_DARK_CSS_p9 ++ GITHUB_DARK_CSS_p10 ++ GITHUB_DARK_CSS_p11 ++ GITHUB_DARK_CSS_p12 ++ GITHUB_DARK_CSS_p13 ++ GITHUB_DARK_CSS_p14 ++ GITHUB_DARK_CSS_p15 ++ GITHUB_DARK_CSS_p16 ++ GITHUB_DARK_CSS_p17 ++ GITHUB_DARK_CSS_p18 ++ GITHUB_DARK_CSS_p19 ++ GITHUB_DARK_CSS_p20 ++ GITHUB_DARK_CSS_p21 ++ GITHUB_DARK_CSS_p22 ++ GITHUB_DARK_CSS_p23 ++ GITHUB_DARK_CSS_p24 ++ GITHUB_DARK_CSS_p25 ++ GITHUB_DARK_CSS_p26 ++ GITHUB_DARK_CSS_p27 ++ GITHUB_DARK_CSS_p28 ++ GITHUB_DARK_CSS_p29 ++ GITHUB_DARK_CSS_p30 ++ GITHUB_DARK_CSS_p31 ++ GITHUB_DARK_CSS_p32 ++ GITHUB_DARK_CSS_p33 ++ GITHUB_DARK_CSS_p34 ++ GITHUB_DARK_CSS_p35 ++ GITHUB_DARK_CSS_p36 ++ GITHUB_DARK_CSS_p37 ++ GITHUB_DARK_CSS_p38 ++ GITHUB_DARK_CSS_p39 ++ GITHUB_DARK_CSS_p40 ++ GITHUB_DARK_CSS_p41 ++ GITHUB_DARK_CSS_p42 ++ GITHUB_DARK_CSS_p43 ++ GITHUB_DARK_CSS_p44 ++ GITHUB_DARK_CSS_p45 ++ GITHUB_DARK_CSS_p46 ++ GITHUB_DARK_CSS_p47 ++ GITHUB_DARK_CSS_p48

/-- Segment of `HTML_TEMPLATE` between the `\x7bcss\x7d` and `\x7bcontent\x7d` placeholders. -/
def HTML_TEMPLATE_seg3 : String :=
  "\n</head>\n<body>\n  <article class=\"markdown-body\">\n    "

/-- Final segment of `HTML_TEMPLATE` (after the `\x7bcontent\x7d` placeholder): closes the
article, embeds the auto-reload script with its 2000 ms delay, and closes the page. The
Python format escapes `\x7b\x7b`/`\x7d\x7d` are already resolved to literal braces. -/
def HTML_TEMPLATE_seg4 : String :=
  "\n  </article>\n  <script>\n    // Auto-refresh every 2 seconds to see updates\n    setTimeout(function() \x7b\n      location.reload();\n    \x7d, 2000);\n  </script>\n</body>\n</html>\n"

/-- The embedded reload script text that `HTML_TEMPLATE` places after the content article:
reloads the page 2000 milliseconds after load (serve_readme.py lines 177-182). -/
def reloadScript : String :=
  "setTimeout(function() \x7b\n      location.reload();\n    \x7d, 2000);"

/-- The fixed page title passed to the template by `MarkdownHandler.do_GET`
(serve_readme.py line 209). -/
def titleChunk : String :=
  "Blueprint App - README"

/-- The character data of everything `renderedPage` places before the content fragment
(first template segments, the fixed title, the stylesheet), as a list of chunks each shorter
than `reloadScript` and none ending in a nonempty prefix of `reloadScript`. -/
def pagePrefixChunks : List (List Char) :=
  [HTML_TEMPLATE_seg1_p1.data,
   HTML_TEMPLATE_seg1_p2.data,
   HTML_TEMPLATE_seg1_p3.data,
   titleChunk.data,
   HTML_TEMPLATE_seg2.data,
   GITHUB_DARK_CSS_p1.data,
   GITHUB_DARK_CSS_p2.data,
   GITHUB_DARK_CSS_p3.data,
   GITHUB_DARK_CSS_p4.data,
   GITHUB_DARK_CSS_p5.data,
   GITHUB_DARK_CSS_p6.data,
   GITHUB_DARK_CSS_p7.data,
   GITHUB_DARK_CSS_p8.data,
   GITHUB_DARK_CSS_p9.data,
   GITHUB_DARK_CSS_p10.data,
   GITHUB_DARK_CSS_p11.data,
   GITHUB_DARK_CSS_p12.data,
   GITHUB_DARK_CSS_p13.data,
   GITHUB_DARK_CSS_p14.data,
   GITHUB_DARK_CSS_p15.data,
   GITHUB_DARK_CSS_p16.data,
   GITHUB_DARK_CSS_p17.data,
   GITHUB_DARK_CSS_p18.data,
   GITHUB_DARK_CSS_p19.data,
   GITHUB_DARK_CSS_p20.data,
   GITHUB_DARK_CSS_p21.data,
   GITHUB_DARK_CSS_p22.data,
   GITHUB_DARK_CSS_p23.data,
   GITHUB_DARK_CSS_p24.data,
   GITHUB_DARK_CSS_p25.data,
   GITHUB_DARK_CSS_p26.data,
   GITHUB_DARK_CSS_p27.data,
   GITHUB_DARK_CSS_p28.data,
   GITHUB_DARK_CSS_p29.data,
   GITHUB_DARK_CSS_p30.data,
   GITHUB_DARK_CSS_p31.data,
   GITHUB_DARK_CSS_p32.data,
   GITHUB_DARK_CSS_p33.data,
   GITHUB_DARK_CSS_p34.data,
   GITHUB_DARK_CSS_p35.data,
   GITHUB_DARK_CSS_p36.data,
   GITHUB_DARK_CSS_p37.data,
   GITHUB_DARK_CSS_p38.data,
   GITHUB_DARK_CSS_p39.data,
   GITHUB_DARK_CSS_p40.data,
   GITHUB_DARK_CSS_p41.data,
   GITHUB_DARK_CSS_p42.data,
   GITHUB_DARK_CSS_p43.data,
   GITHUB_DARK_CSS_p44.data,
   GITHUB_DARK_CSS_p45.data,
   GITHUB_DARK_CSS_p46.data,
   GITHUB_DARK_CSS_p47.data,
   GITHUB_DARK_CSS_p48.data,
   HTML_TEMPLATE_seg3.data]

/-- `HTML_TEMPLATE.format(title=..., css=..., content=...)` as performed by
`MarkdownHandler.do_GET` (serve_readme.py lines 208-212): the fixed page template with
the three placeholders substituted.  The response body on the success path is the
UTF-8 encoding of this string. -/
def renderedPage (title css content : String) : String :=
  HTML_TEMPLATE_seg1 ++ title ++ HTML_TEMPLATE_seg2 ++ css ++
    HTML_TEMPLATE_seg3 ++ content ++ HTML_TEMPLATE_seg4

/-- An HTTP response as written by the handler: the status code, the headers the
handler itself sets, and the body (a string whose UTF-8 encoding is what is written
to the socket).  Protocol headers added automatically by the Python base class
(Server, Date) are outside the model. -/
structure Response where
  status : Nat
  headers : List (String × String)
  body : String

/-- Modelled from CPython http.server BaseHTTPRequestHandler.send_error, which the
source calls for every error path (serve_readme.py lines 193 and 220): the response
status is the given code and the body carries the given message (the stdlib embeds
the message into its fixed explanatory error page; the model keeps the message
itself as the body). -/
def send_error (code : Nat) (message : String) : Response :=
  { status := code
    headers := [("Connection", "close"), ("Content-Type", "text/html;charset=utf-8")]
    body := message }

/-- The per-request environment of `MarkdownHandler.do_GET`: the outcome of each
external effect the handler performs, in source order.  `readmeExists` is the result
of the Path README.md exists() check, `readResult` the outcome of opening, reading
and UTF-8-decoding the file (`Except.error` carries the exception description when
that raises), and `markdown` is the external markdown.markdown library call, taking
the source text and the extension list and returning the converted HTML fragment, or
the raised exception description. -/
structure Env where
  readmeExists : Bool
  readResult : Except String String
  markdown : String → List String → Except String String

/-- The extension list passed to `markdown.markdown` by `MarkdownHandler.do_GET`
(serve_readme.py line 204). -/
def markdownExtensions : List String :=
  ["tables", "fenced_code", "codehilite"]

/-- `MarkdownHandler.do_GET` (serve_readme.py lines 188-220).  The requested path is
taken as a parameter because the handler has it available as self.path, but the
source never consults it.  The try/except of the source becomes the propagation of
`Except.error` outcomes of the read and of the conversion into the 500 branch; the
missing-file check happens first and returns 404 without reading or converting. -/
def do_GET (path : String) (env : Env) : Response :=
  if !env.readmeExists then
    send_error 404 "README.md not found"
  else
    match env.readResult with
    | Except.error e => send_error 500 ("Error rendering markdown: " ++ e)
    | Except.ok md_content =>
      match env.markdown md_content markdownExtensions with
      | Except.error e => send_error 500 ("Error rendering markdown: " ++ e)
      | Except.ok html_content =>
        { status := 200
          headers := [("Content-type", "text/html; charset=utf-8")]
          body := renderedPage "Blueprint App - README" GITHUB_DARK_CSS html_content }

/-- Modelled from CPython http.server method dispatch: handle_one_request looks up the
method do_METHOD on the handler class.  `MarkdownHandler` overrides only do_GET;
do_HEAD is inherited from SimpleHTTPRequestHandler (its file-serving behaviour is a
parameter here, since it is stdlib code), and any other method is answered with
501 Unsupported method. -/
def handleRequest (inheritedHEAD : String → Env → Response)
    (method : String) (path : String) (env : Env) : Response :=
  if method = "GET" then do_GET path env
  else if method = "HEAD" then inheritedHEAD path env
  else send_error 501 ("Unsupported method (\x27" ++ method ++ "\x27)")

/-- Number of positions of `l` at which the pattern `pat` occurs (counting
overlapping occurrences; for a pattern that cannot overlap itself, such as the
reload script, this is the plain occurrence count). -/
def countOcc (pat : List Char) : List Char → Nat
  | [] => 0
  | c :: cs => (if pat.isPrefixOf (c :: cs) then 1 else 0) + countOcc pat cs

/-- A chunk `d` is safe for pattern `pat` when it is shorter than `pat` and no
nonempty suffix of `d` is a prefix of `pat`: then no occurrence of `pat` can start
inside `d`, whatever text follows. -/
def chunkOK (pat d : List Char) : Bool :=
  decide (d.length < pat.length) && d.tails.all (fun s => s.isEmpty || !(s.isPrefixOf pat))

/-! ### Helper lemmas: counting pattern occurrences in chunked strings -/

theorem suffix_append_right {α : Type} {s a : List α} (h : s <:+ a) (t : List α) :
    s ++ t <:+ a ++ t := by
  rcases h with ⟨u, hu⟩
  exact ⟨u, by rw [← List.append_assoc, hu]⟩

theorem not_occur_of_countOcc_zero {pat : List Char} (hp : pat ≠ []) :
    ∀ l : List Char, countOcc pat l = 0 → ∀ s, s <:+ l → ¬ pat <+: s := by
  intro l
  induction l with
  | nil =>
    intro _ s hs hpre
    rw [List.suffix_nil.mp hs] at hpre
    exact hp (List.prefix_nil.mp hpre)
  | cons c cs ih =>
    intro h0 s hs hpre
    have h0' : (if pat.isPrefixOf (c :: cs) then 1 else 0) + countOcc pat cs = 0 := h0
    rcases List.suffix_cons_iff.mp hs with h | h
    · subst h
      by_cases hb : pat.isPrefixOf (c :: cs)
      · rw [if_pos hb] at h0'
        omega
      · exact absurd (List.isPrefixOf_iff_prefix.mpr hpre) hb
    · have hrest : countOcc pat cs = 0 := by
        by_cases hb : pat.isPrefixOf (c :: cs)
        · rw [if_pos hb] at h0'
          omega
        · rw [if_neg hb] at h0'
          omega
      exact ih hrest s h hpre

theorem countOcc_append_no_spill (pat : List Char) :
    ∀ a b : List Char, (∀ s, s <:+ a → s ≠ [] → ¬ pat <+: (s ++ b)) →
      countOcc pat (a ++ b) = countOcc pat b := by
  intro a
  induction a with
  | nil => intro b _; rfl
  | cons c cs ih =>
    intro b h
    have hc : ¬ pat <+: ((c :: cs) ++ b) := h (c :: cs) List.suffix_rfl (by simp)
    have hb : pat.isPrefixOf (c :: (cs ++ b)) = false := by
      rw [← Bool.not_eq_true, List.isPrefixOf_iff_prefix]
      simpa using hc
    calc countOcc pat ((c :: cs) ++ b)
        = (if pat.isPrefixOf (c :: (cs ++ b)) then 1 else 0) + countOcc pat (cs ++ b) := rfl
      _ = countOcc pat (cs ++ b) := by rw [hb]; simp
      _ = countOcc pat b := ih b (fun s hs hne => h s (hs.trans (List.suffix_cons c cs)) hne)

theorem chunkOK_no_spill {pat d : List Char} (h : chunkOK pat d = true) :
    ∀ b s, s <:+ d → s ≠ [] → ¬ pat <+: (s ++ b) := by
  intro b s hs hne hpre
  rw [chunkOK, Bool.and_eq_true] at h
  have hlen : d.length < pat.length := of_decide_eq_true h.1
  have hsp : s <+: pat :=
    List.prefix_of_prefix_length_le (List.prefix_append s b) hpre
      (le_trans hs.length_le (Nat.le_of_lt hlen))
  have htails := List.all_eq_true.mp h.2 s ((List.mem_tails s d).mpr hs)
  simp only [Bool.or_eq_true, List.isEmpty_eq_true, Bool.not_eq_true] at htails
  rcases htails with h1 | h1
  · exact hne h1
  · rw [List.isPrefixOf_iff_prefix.mpr hsp] at h1
    simp at h1

theorem countOcc_chunk {pat d : List Char} (h : chunkOK pat d = true) (X : List Char) :
    countOcc pat (d ++ X) = countOcc pat X :=
  countOcc_append_no_spill pat d X (fun s hs hne => chunkOK_no_spill h X s hs hne)

theorem countOcc_chunks (pat : List Char) :
    ∀ ds : List (List Char), ds.all (chunkOK pat) = true →
      ∀ X, countOcc pat (ds.foldr (fun a b => a ++ b) X) = countOcc pat X := by
  intro ds
  induction ds with
  | nil => intro _ X; rfl
  | cons d ds ih =>
    intro h X
    rw [List.all_cons, Bool.and_eq_true] at h
    rw [List.foldr_cons, countOcc_chunk h.1, ih h.2 X]

theorem pagePrefixChunks_ok : pagePrefixChunks.all (chunkOK reloadScript.data) = true := by
  decide

theorem renderedPage_data (content : String) :
    (renderedPage "Blueprint App - README" GITHUB_DARK_CSS content).data =
      pagePrefixChunks.foldr (fun a b => a ++ b)
        (content.data ++ HTML_TEMPLATE_seg4.data) := by
  simp [renderedPage, GITHUB_DARK_CSS, HTML_TEMPLATE_seg1, pagePrefixChunks, titleChunk,
    String.data_append, List.append_assoc]

theorem countOcc_renderedPage (content : String) :
    countOcc reloadScript.data
        (renderedPage "Blueprint App - README" GITHUB_DARK_CSS content).data =
      countOcc reloadScript.data (content.data ++ HTML_TEMPLATE_seg4.data) := by
  rw [renderedPage_data]
  exact countOcc_chunks _ _ pagePrefixChunks_ok _

theorem countOcc_seg4 : countOcc reloadScript.data HTML_TEMPLATE_seg4.data = 1 := by
  decide

theorem reloadScript_no_spill {frag : List Char}
    (hf : ¬ (reloadScript.data <:+: frag)) :
    ∀ s, s <:+ frag → s ≠ [] → ¬ reloadScript.data <+: (s ++ HTML_TEMPLATE_seg4.data) := by
  intro s hs hne hpre
  by_cases hlen : reloadScript.data.length ≤ s.length
  · have h2 : reloadScript.data <+: s :=
      List.prefix_of_prefix_length_le hpre (List.prefix_append s _) hlen
    exact hf (List.infix_iff_prefix_suffix.mpr ⟨s, h2, hs⟩)
  · push_neg at hlen
    have hsp : s <+: reloadScript.data :=
      List.prefix_of_prefix_length_le (List.prefix_append s _) hpre (Nat.le_of_lt hlen)
    have hdec : reloadScript.data = s ++ reloadScript.data.drop s.length := by
      conv_lhs => rw [← List.take_append_drop s.length reloadScript.data]
      rw [← List.prefix_iff_eq_take.mp hsp]
    have hdrop : reloadScript.data.drop s.length <+: HTML_TEMPLATE_seg4.data := by
      rw [hdec] at hpre
      rcases hpre with ⟨t, ht⟩
      rw [List.append_assoc] at ht
      exact ⟨t, List.append_cancel_left ht⟩
    have hk : ∀ k, k ∈ List.range reloadScript.data.length → k = 0 ∨
        (reloadScript.data.drop k).isPrefixOf HTML_TEMPLATE_seg4.data = false := by
      decide
    rcases hk s.length (List.mem_range.mpr hlen) with h0 | h0
    · exact hne (List.eq_nil_of_length_eq_zero h0)
    · rw [List.isPrefixOf_iff_prefix.mpr hdrop] at h0
      simp at h0

theorem foldr_append_cancel {α : Type} (ds : List (List α)) :
    ∀ X Y : List α, ds.foldr (fun a b => a ++ b) X = ds.foldr (fun a b => a ++ b) Y →
      X = Y := by
  induction ds with
  | nil => intro X Y h; exact h
  | cons d ds ih =>
    intro X Y h
    rw [List.foldr_cons, List.foldr_cons] at h
    exact ih _ _ (List.append_cancel_left h)

theorem renderedPage_inj {c₁ c₂ : String}
    (h : renderedPage "Blueprint App - README" GITHUB_DARK_CSS c₁ =
         renderedPage "Blueprint App - README" GITHUB_DARK_CSS c₂) : c₁ = c₂ := by
  have hd := congrArg String.data h
  rw [renderedPage_data, renderedPage_data] at hd
  have h2 := foldr_append_cancel _ _ _ hd
  exact String.ext (List.append_cancel_right h2)

theorem do_GET_success (path : String) (env : Env) (md frag : String)
    (hex : env.readmeExists = true) (hr : env.readResult = Except.ok md)
    (hm : env.markdown md markdownExtensions = Except.ok frag) :
    do_GET path env =
      { status := 200
        headers := [("Content-type", "text/html; charset=utf-8")]
        body := renderedPage "Blueprint App - README" GITHUB_DARK_CSS frag } := by
  simp [do_GET, hex, hr, hm]

theorem infix_foldr {α : Type} (ds : List (List α)) (X Y : List α) (h : Y <:+: X) :
    Y <:+: ds.foldr (fun a b => a ++ b) X := by
  induction ds with
  | nil => exact h
  | cons d ds ih => exact ih.trans (List.suffix_append d _).isInfix

/-! ### Claims -/

/-- C1: for every request in which README.md exists and is read, decoded as UTF-8 and
converted successfully, the handler responds with status 200, exactly the one header
Content-type: text/html; charset=utf-8, and a body equal to the fixed HTML page template
with the converted fragment, the fixed title and the fixed stylesheet substituted in
(the bytes written to the socket being the UTF-8 encoding of this string). -/
theorem C1_success_response (path : String) (env : Env) (md frag : String)
    (hex : env.readmeExists = true) (hr : env.readResult = Except.ok md)
    (hm : env.markdown md markdownExtensions = Except.ok frag) :
    (do_GET path env).status = 200 ∧
    (do_GET path env).headers = [("Content-type", "text/html; charset=utf-8")] ∧
    (do_GET path env).body = renderedPage "Blueprint App - README" GITHUB_DARK_CSS frag := by
  rw [do_GET_success path env md frag hex hr hm]
  exact ⟨rfl, rfl, rfl⟩

/-- C1 witness: a concrete request on which README.md exists, reads and converts. -/
theorem C1_success_response_witness :
    (do_GET "/" ⟨true, Except.ok "hi", fun _ _ => Except.ok "<p>hi</p>"⟩).status = 200 ∧
    (do_GET "/" ⟨true, Except.ok "hi", fun _ _ => Except.ok "<p>hi</p>"⟩).headers =
      [("Content-type", "text/html; charset=utf-8")] ∧
    (do_GET "/" ⟨true, Except.ok "hi", fun _ _ => Except.ok "<p>hi</p>"⟩).body =
      renderedPage "Blueprint App - README" GITHUB_DARK_CSS "<p>hi</p>" :=
  C1_success_response "/" ⟨true, Except.ok "hi", fun _ _ => Except.ok "<p>hi</p>"⟩
    "hi" "<p>hi</p>" rfl rfl rfl

/-- C2: two GET requests with different requested paths but the same README.md state at
invocation time produce identical status, headers and body: the handler never consults
the path (this holds for all pairs of paths, different or not). -/
theorem C2_path_never_selects (p₁ p₂ : String) (env : Env) :
    do_GET p₁ env = do_GET p₂ env := rfl

/-- C3 counterexample: with README.md present and converting fine, a POST request is
answered 501 Unsupported method by the method dispatch, not with the rendered document
that the same GET request receives: the claim that every method is mapped to the
renderer identically to GET is false. -/
theorem C3_counterexample :
    (handleRequest (fun _ _ => send_error 501 "") "POST" "/"
        ⟨true, Except.ok "hi", fun _ _ => Except.ok "<p>hi</p>"⟩).status = 501 ∧
    (do_GET "/" ⟨true, Except.ok "hi", fun _ _ => Except.ok "<p>hi</p>"⟩).status = 200 ∧
    handleRequest (fun _ _ => send_error 501 "") "POST" "/"
        ⟨true, Except.ok "hi", fun _ _ => Except.ok "<p>hi</p>"⟩ ≠
      do_GET "/" ⟨true, Except.ok "hi", fun _ _ => Except.ok "<p>hi</p>"⟩ := by
  refine ⟨rfl, rfl, fun h => ?_⟩
  have h501 : (501 : Nat) = 200 := congrArg Response.status h
  omega

/-- C3 amended: only GET requests invoke the renderer.  The handler class overrides only
do_GET, so a GET request (whatever its path) returns the rendered document, a HEAD
request falls back to the inherited SimpleHTTPRequestHandler behaviour, and any other
method receives a 501 Unsupported method error response. -/
theorem C3_amended_dispatch (inheritedHEAD : String → Env → Response)
    (method path : String) (env : Env) :
    handleRequest inheritedHEAD "GET" path env = do_GET path env ∧
    handleRequest inheritedHEAD "HEAD" path env = inheritedHEAD path env ∧
    (method ≠ "GET" → method ≠ "HEAD" →
      handleRequest inheritedHEAD method path env =
        send_error 501 ("Unsupported method (\x27" ++ method ++ "\x27)")) := by
  refine ⟨rfl, rfl, fun h1 h2 => ?_⟩
  simp [handleRequest, h1, h2]

/-- C3 amended witness: a POST request receives the 501 response. -/
theorem C3_amended_dispatch_witness :
    handleRequest (fun _ _ => send_error 501 "") "POST" "/"
        ⟨false, Except.ok "", fun _ _ => Except.ok ""⟩ =
      send_error 501 "Unsupported method (\x27POST\x27)" :=
  (C3_amended_dispatch (fun _ _ => send_error 501 "") "POST" "/"
      ⟨false, Except.ok "", fun _ _ => Except.ok ""⟩).2.2 (by decide) (by decide)

/-- C4: when README.md does not exist the handler responds 404 with a body naming
README.md, and never consults the outcomes of the read or of the conversion (the
response is unchanged whatever those outcomes would have been). -/
theorem C4_not_found (path : String) (env : Env) (hex : env.readmeExists = false) :
    (do_GET path env).status = 404 ∧
    (do_GET path env).body = "README.md not found" ∧
    "README.md".data <:+: (do_GET path env).body.data ∧
    (∀ r m, do_GET path { env with readResult := r, markdown := m } = do_GET path env) := by
  have hfix : do_GET path env = send_error 404 "README.md not found" := by
    simp [do_GET, hex]
  refine ⟨by rw [hfix]; rfl, by rw [hfix]; rfl, ?_, ?_⟩
  · rw [hfix]
    decide
  · intro r m
    simp [do_GET, hex]

/-- C4 witness: a concrete request with README.md absent; swapping in different read and
conversion outcomes leaves the response unchanged. -/
theorem C4_not_found_witness :
    (do_GET "/" ⟨false, Except.error "boom", fun _ _ => Except.error "x"⟩).status = 404 ∧
    (do_GET "/" ⟨false, Except.error "boom", fun _ _ => Except.error "x"⟩).body =
      "README.md not found" ∧
    do_GET "/" ⟨false, Except.ok "text", fun _ _ => Except.ok "<p>text</p>"⟩ =
      do_GET "/" ⟨false, Except.error "boom", fun _ _ => Except.error "x"⟩ := by
  have h := C4_not_found "/" ⟨false, Except.error "boom", fun _ _ => Except.error "x"⟩ rfl
  exact ⟨h.1, h.2.1, h.2.2.2 (Except.ok "text") (fun _ _ => Except.ok "<p>text</p>")⟩

/-- C5: every exception raised during reading, decoding or conversion is caught and
turned into a 500 response whose body contains the exception description, and the
handler always returns one of its three response shapes (200, 404 or 500), so no
request-handling failure propagates out of it. -/
theorem C5_errors_caught (path : String) (env : Env) :
    (∀ e, env.readmeExists = true → env.readResult = Except.error e →
      do_GET path env = send_error 500 ("Error rendering markdown: " ++ e) ∧
      e.data <:+: (do_GET path env).body.data) ∧
    (∀ md e, env.readmeExists = true → env.readResult = Except.ok md →
      env.markdown md markdownExtensions = Except.error e →
      do_GET path env = send_error 500 ("Error rendering markdown: " ++ e) ∧
      e.data <:+: (do_GET path env).body.data) ∧
    ((do_GET path env).status = 200 ∨ (do_GET path env).status = 404 ∨
      (do_GET path env).status = 500) := by
  refine ⟨?_, ?_, ?_⟩
  · intro e hex hr
    have hfix : do_GET path env = send_error 500 ("Error rendering markdown: " ++ e) := by
      simp [do_GET, hex, hr]
    refine ⟨hfix, ?_⟩
    rw [hfix]
    show e.data <:+: ("Error rendering markdown: " ++ e).data
    rw [String.data_append]
    exact (List.suffix_append _ _).isInfix
  · intro md e hex hr hm
    have hfix : do_GET path env = send_error 500 ("Error rendering markdown: " ++ e) := by
      simp [do_GET, hex, hr, hm]
    refine ⟨hfix, ?_⟩
    rw [hfix]
    show e.data <:+: ("Error rendering markdown: " ++ e).data
    rw [String.data_append]
    exact (List.suffix_append _ _).isInfix
  · rcases env with ⟨ex, rr, mk⟩
    cases ex
    · right; left; rfl
    · cases rr with
      | error e => right; right; rfl
      | ok md =>
        cases hmk : mk md markdownExtensions with
        | error e =>
          right; right
          simp [do_GET, hmk, send_error]
        | ok f =>
          left
          simp [do_GET, hmk]

/-- C5 witness: a read failure and a conversion failure, each answered 500 with the
description in the body. -/
theorem C5_errors_caught_witness :
    do_GET "/" ⟨true, Except.error "boom", fun _ _ => Except.ok ""⟩ =
      send_error 500 "Error rendering markdown: boom" ∧
    do_GET "/" ⟨true, Except.ok "x", fun _ _ => Except.error "bad"⟩ =
      send_error 500 "Error rendering markdown: bad" :=
  ⟨((C5_errors_caught "/" ⟨true, Except.error "boom", fun _ _ => Except.ok ""⟩).1
      "boom" rfl rfl).1,
   ((C5_errors_caught "/" ⟨true, Except.ok "x", fun _ _ => Except.error "bad"⟩).2.1
      "x" "bad" rfl rfl rfl).1⟩

/-- C6 counterexample: a converted fragment that itself contains the reload script text
(raw HTML blocks pass through the markdown converter unchanged) yields a successful
response body with two occurrences of the reload script, refuting exactly-one for every
source-document content. -/
theorem C6_counterexample :
    countOcc reloadScript.data
      (do_GET "/" ⟨true, Except.ok "x", fun _ _ => Except.ok reloadScript⟩).body.data = 2 := by
  have hb : (do_GET "/" ⟨true, Except.ok "x", fun _ _ => Except.ok reloadScript⟩).body =
      renderedPage "Blueprint App - README" GITHUB_DARK_CSS reloadScript := rfl
  rw [hb, countOcc_renderedPage]
  decide

/-- C6 amended: every successful response body embeds the reload script with its fixed
2000 millisecond delay, and contains it exactly once whenever the converted fragment
does not itself contain the script text (the fixed template contributes exactly one
occurrence; a fragment containing the script adds further ones). -/
theorem C6_reload_script (path : String) (env : Env) (md frag : String)
    (hex : env.readmeExists = true) (hr : env.readResult = Except.ok md)
    (hm : env.markdown md markdownExtensions = Except.ok frag) :
    reloadScript.data <:+: (do_GET path env).body.data ∧
    (¬ (reloadScript.data <:+: frag.data) →
      countOcc reloadScript.data (do_GET path env).body.data = 1) ∧
    "2000".data <:+: reloadScript.data := by
  have hb : (do_GET path env).body =
      renderedPage "Blueprint App - README" GITHUB_DARK_CSS frag := by
    rw [do_GET_success path env md frag hex hr hm]
  refine ⟨?_, ?_, by decide⟩
  · rw [hb]
    show reloadScript.data <:+:
      (renderedPage "Blueprint App - README" GITHUB_DARK_CSS frag).data
    rw [renderedPage_data]
    have h1 : reloadScript.data <:+: HTML_TEMPLATE_seg4.data := by decide
    exact infix_foldr _ _ _
      (h1.trans (List.suffix_append frag.data HTML_TEMPLATE_seg4.data).isInfix)
  · intro hfrag
    rw [hb, countOcc_renderedPage,
      countOcc_append_no_spill reloadScript.data frag.data HTML_TEMPLATE_seg4.data
        (reloadScript_no_spill hfrag),
      countOcc_seg4]

/-- C6 amended witness: a concrete successful request whose fragment does not contain
the script text embeds the reload script exactly once. -/
theorem C6_reload_script_witness :
    reloadScript.data <:+:
      (do_GET "/" ⟨true, Except.ok "hi", fun _ _ => Except.ok "<p>hi</p>"⟩).body.data ∧
    countOcc reloadScript.data
      (do_GET "/" ⟨true, Except.ok "hi", fun _ _ => Except.ok "<p>hi</p>"⟩).body.data = 1 := by
  have h := C6_reload_script "/" ⟨true, Except.ok "hi", fun _ _ => Except.ok "<p>hi</p>"⟩
    "hi" "<p>hi</p>" rfl rfl rfl
  exact ⟨h.1, h.2.1 (by decide)⟩

/-- C7: the conversion step is invoked with exactly the tables, fenced_code and
codehilite extensions - the response depends on the markdown library only through its
behaviour at that extension list - and whenever the converter yields a fragment
containing an HTML table element, the response body contains that element. -/
theorem C7_extensions (path : String) (env : Env)
    (md₂ : String → List String → Except String String)
    (hagree : ∀ s, env.markdown s markdownExtensions = md₂ s markdownExtensions) :
    do_GET path env = do_GET path { env with markdown := md₂ } ∧
    markdownExtensions = ["tables", "fenced_code", "codehilite"] ∧
    (∀ md frag, env.readmeExists = true → env.readResult = Except.ok md →
      env.markdown md markdownExtensions = Except.ok frag →
      "<table>".data <:+: frag.data →
      "<table>".data <:+: (do_GET path env).body.data) := by
  refine ⟨?_, rfl, ?_⟩
  · rcases env with ⟨ex, rr, mk⟩
    cases ex
    · rfl
    · cases rr with
      | error e => rfl
      | ok md =>
        have hmd : mk md markdownExtensions = md₂ md markdownExtensions := hagree md
        simp [do_GET, hmd]
  · intro md frag hex hr hm htab
    have hb : (do_GET path env).body =
        renderedPage "Blueprint App - README" GITHUB_DARK_CSS frag := by
      rw [do_GET_success path env md frag hex hr hm]
    rw [hb]
    show "<table>".data <:+:
      (renderedPage "Blueprint App - README" GITHUB_DARK_CSS frag).data
    rw [renderedPage_data]
    exact infix_foldr _ _ _
      (htab.trans (List.prefix_append frag.data HTML_TEMPLATE_seg4.data).isInfix)

/-- C7 witness: with a converter producing a table element, the body contains it. -/
theorem C7_extensions_witness :
    "<table>".data <:+:
      (do_GET "/" ⟨true, Except.ok "|a|", fun _ _ => Except.ok "<table></table>"⟩).body.data := by
  have h := C7_extensions "/" ⟨true, Except.ok "|a|", fun _ _ => Except.ok "<table></table>"⟩
    (fun _ _ => Except.ok "<table></table>") (fun _ => rfl)
  exact h.2.2 "|a|" "<table></table>" rfl rfl rfl (by decide)

/-- C8 counterexample: two requests whose README.md contents differ (by a trailing
newline) but whose conversions coincide produce identical rendered bodies: changed file
contents do not guarantee different bodies. -/
theorem C8_counterexample :
    ("hi" : String) ≠ "hi\n" ∧
    do_GET "/" ⟨true, Except.ok "hi", fun _ _ => Except.ok "<p>hi</p>"⟩ =
      do_GET "/" ⟨true, Except.ok "hi\n", fun _ _ => Except.ok "<p>hi</p>"⟩ :=
  ⟨by decide, rfl⟩

/-- C8 amended: the handler holds no state and recomputes the body from the file
contents read at its own invocation; on success paths the body is determined by the
converted fragment alone, and two bodies coincide exactly when the converted fragments
coincide - so distinct fragments always give distinct bodies, while distinct contents
whose conversions collapse give identical bodies. -/
theorem C8_fresh_pure (p₁ p₂ : String) (env₁ env₂ : Env) (md₁ md₂ frag₁ frag₂ : String)
    (hex₁ : env₁.readmeExists = true) (hr₁ : env₁.readResult = Except.ok md₁)
    (hm₁ : env₁.markdown md₁ markdownExtensions = Except.ok frag₁)
    (hex₂ : env₂.readmeExists = true) (hr₂ : env₂.readResult = Except.ok md₂)
    (hm₂ : env₂.markdown md₂ markdownExtensions = Except.ok frag₂) :
    (do_GET p₁ env₁).body = (do_GET p₂ env₂).body ↔ frag₁ = frag₂ := by
  rw [do_GET_success p₁ env₁ md₁ frag₁ hex₁ hr₁ hm₁,
      do_GET_success p₂ env₂ md₂ frag₂ hex₂ hr₂ hm₂]
  show renderedPage "Blueprint App - README" GITHUB_DARK_CSS frag₁ =
      renderedPage "Blueprint App - README" GITHUB_DARK_CSS frag₂ ↔ frag₁ = frag₂
  constructor
  · exact fun h => renderedPage_inj h
  · intro h
    rw [h]

/-- C8 amended witness: distinct fragments yield distinct bodies. -/
theorem C8_fresh_pure_witness :
    ((do_GET "/" ⟨true, Except.ok "a", fun _ _ => Except.ok "<p>a</p>"⟩).body =
      (do_GET "/" ⟨true, Except.ok "b", fun _ _ => Except.ok "<p>b</p>"⟩).body) ↔
    ("<p>a</p>" : String) = "<p>b</p>" :=
  C8_fresh_pure "/" "/" ⟨true, Except.ok "a", fun _ _ => Except.ok "<p>a</p>"⟩
    ⟨true, Except.ok "b", fun _ _ => Except.ok "<p>b</p>"⟩
    "a" "b" "<p>a</p>" "<p>b</p>" rfl rfl rfl rfl rfl rfl

/-- C9: when README.md exists and is empty and the converter maps the empty text to the
empty fragment (as markdown.markdown does), the response has status 200 and its body is
the fixed page with an empty content article (only whitespace between the article
tags). -/
theorem C9_empty_document (path : String) (env : Env)
    (hex : env.readmeExists = true) (hr : env.readResult = Except.ok "")
    (hm : env.markdown "" markdownExtensions = Except.ok "") :
    (do_GET path env).status = 200 ∧
    (do_GET path env).body = renderedPage "Blueprint App - README" GITHUB_DARK_CSS "" ∧
    "<article class=\"markdown-body\">\n    \n  </article>".data <:+:
      (do_GET path env).body.data := by
  have h := do_GET_success path env "" "" hex hr hm
  refine ⟨by rw [h], by rw [h], ?_⟩
  rw [h]
  show "<article class=\"markdown-body\">\n    \n  </article>".data <:+:
    (renderedPage "Blueprint App - README" GITHUB_DARK_CSS "").data
  have hb : (renderedPage "Blueprint App - README" GITHUB_DARK_CSS "").data =
      (HTML_TEMPLATE_seg1.data ++ "Blueprint App - README".data ++
        HTML_TEMPLATE_seg2.data ++ GITHUB_DARK_CSS.data) ++
      (HTML_TEMPLATE_seg3.data ++ (("" : String).data ++ HTML_TEMPLATE_seg4.data)) := by
    simp [renderedPage, String.data_append, List.append_assoc]
  rw [hb]
  have htail : "<article class=\"markdown-body\">\n    \n  </article>".data <:+:
      HTML_TEMPLATE_seg3.data ++ (("" : String).data ++ HTML_TEMPLATE_seg4.data) := by
    decide
  exact htail.trans (List.suffix_append _ _).isInfix

/-- C9 witness: a concrete empty document served as the fixed page. -/
theorem C9_empty_document_witness :
    (do_GET "/" ⟨true, Except.ok "", fun _ _ => Except.ok ""⟩).status = 200 ∧
    (do_GET "/" ⟨true, Except.ok "", fun _ _ => Except.ok ""⟩).body =
      renderedPage "Blueprint App - README" GITHUB_DARK_CSS "" := by
  have h := C9_empty_document "/" ⟨true, Except.ok "", fun _ _ => Except.ok ""⟩ rfl rfl rfl
  exact ⟨h.1, h.2.1⟩

/-- C10: the 404 outcome is decided solely by the existence check performed before the
file is opened - whenever README.md exists at the check, the response is never 404, and
a read that then fails (for example because the file was removed between check and
read) yields 500 with the exception description. -/
theorem C10_race (path : String) (env : Env) (hex : env.readmeExists = true) :
    (do_GET path env).status ≠ 404 ∧
    (∀ e, env.readResult = Except.error e →
      do_GET path env = send_error 500 ("Error rendering markdown: " ++ e)) := by
  constructor
  · rcases env with ⟨ex, rr, mk⟩
    subst hex
    cases rr with
    | error e => simp [do_GET, send_error]
    | ok md =>
      cases hmk : mk md markdownExtensions with
      | error e => simp [do_GET, hmk, send_error]
      | ok f => simp [do_GET, hmk]
  · intro e hr
    simp [do_GET, hex, hr]

/-- C10 witness: README.md present at the check but the read fails; the response is the
500 error, not 404. -/
theorem C10_race_witness :
    (do_GET "/" ⟨true, Except.error "disappeared", fun _ _ => Except.ok ""⟩).status ≠ 404 ∧
    do_GET "/" ⟨true, Except.error "disappeared", fun _ _ => Except.ok ""⟩ =
      send_error 500 "Error rendering markdown: disappeared" := by
  have h := C10_race "/" ⟨true, Except.error "disappeared", fun _ _ => Except.ok ""⟩ rfl
  exact ⟨h.1, h.2 "disappeared" rfl⟩

end ServeReadme
